import Mathlib

set_option autoImplicit false

namespace PlantSamplingApp

/-- Values of the JSON-shaped data the framework hands to a handler as the
parsed request body (`request.json` in `src/api/index.py`). -/
inductive PyVal where
  | pstr (s : String)
  | pint (n : Int)
  | pbool (b : Bool)
  | pnone
  | plist (items : List PyVal)
  | pdict (entries : List (String × PyVal))

/-- Lookup of a key in a dict body, first matching entry wins. -/
def dictGet? (entries : List (String × PyVal)) (k : String) : Option PyVal :=
  (entries.find? (fun p => p.1 == k)).map (fun p => p.2)

/-- Key membership in a dict body. -/
def dictHas (entries : List (String × PyVal)) (k : String) : Bool :=
  (dictGet? entries k).isSome

/-- Value of a key known to be present, with an inert default otherwise. -/
def dictGetD (entries : List (String × PyVal)) (k : String) : PyVal :=
  (dictGet? entries k).getD PyVal.pnone

/-- Substring test on strings, used by the semantics of the Python
membership operator on a string value. -/
def strContains (hay needle : String) : Bool :=
  (List.range (hay.length + 1)).any (fun i => needle.data.isPrefixOf (hay.data.drop i))

/-- Semantics of the Python expression `k in data` where `data` is the parsed
request body: dict keys for a dict, element equality for a list, substring for
a string, and a TypeError for the non-iterable values (an absent body parses
to None). -/
def pyIn (k : String) (body : Option PyVal) : Except String Bool :=
  match body with
  | none => Except.error "argument of type NoneType is not iterable"
  | some (PyVal.pdict entries) => Except.ok (dictHas entries k)
  | some (PyVal.plist items) =>
      Except.ok (items.any (fun v => match v with
        | PyVal.pstr s => s == k
        | _ => false))
  | some (PyVal.pstr s) => Except.ok (strContains s k)
  | some PyVal.pnone => Except.error "argument of type NoneType is not iterable"
  | some (PyVal.pint _) => Except.error "argument of type int is not iterable"
  | some (PyVal.pbool _) => Except.error "argument of type bool is not iterable"

/-- Semantics of the Python expression `data[k]` for a string key `k`: a dict
yields the entry or a KeyError, every other body raises a TypeError. -/
def pyGetItem (body : Option PyVal) (k : String) : Except String PyVal :=
  match body with
  | some (PyVal.pdict entries) =>
      match dictGet? entries k with
      | some v => Except.ok v
      | none => Except.error ("KeyError: " ++ k)
  | some (PyVal.plist _) => Except.error "list indices must be integers or slices, not str"
  | some (PyVal.pstr _) => Except.error "string indices must be integers"
  | _ => Except.error "object is not subscriptable"

/-- A calendar date as held by the date column of the store. -/
structure Date where
  year : Nat
  month : Nat
  day : Nat
deriving DecidableEq

/-- Split a character list at every occurrence of a separator. -/
def splitOnChar (sep : Char) : List Char → List (List Char)
  | [] => [[]]
  | c :: cs =>
      let r := splitOnChar sep cs
      if c == sep then [] :: r
      else
        match r with
        | [] => [[c]]
        | h :: t => (c :: h) :: t

/-- Read a nonempty all-digit character list as a numeral. -/
def digitsToNat? (cs : List Char) : Option Nat :=
  if cs ≠ [] ∧ cs.all Char.isDigit then
    some (cs.foldl (fun a c => a * 10 + (c.toNat - 48)) 0)
  else none

/-- Modelled from the spec: the store parses a date parameter from its
canonical string form `YYYY-MM-DD` (spec section 3, date value; section 7,
StoreExecutionError on a malformed literal). -/
def Date.parse? (s : String) : Option Date :=
  match splitOnChar '-' s.data with
  | [y, m, d] =>
      match digitsToNat? y, digitsToNat? m, digitsToNat? d with
      | some yn, some mn, some dn =>
          if y.length = 4 ∧ m.length = 2 ∧ d.length = 2 ∧
             1 ≤ mn ∧ mn ≤ 12 ∧ 1 ≤ dn ∧ dn ≤ 31 then
            some ⟨yn, mn, dn⟩
          else none
      | _, _, _ => none
  | _ => none

/-- Left-pad a numeral with zeros to a fixed width. -/
def padNat (w : Nat) (n : Nat) : String :=
  String.mk (List.replicate (w - (toString n).length) '0') ++ toString n

/-- Modelled from the spec: the canonical string form of a date value, the
rendering `str(...)` applied to a fetched date column produces. -/
def Date.render (d : Date) : String :=
  padNat 4 d.year ++ "-" ++ padNat 2 d.month ++ "-" ++ padNat 2 d.day

/-- Modelled from the spec: an integer column accepts an integer parameter, or
a string literal that reads as an integer, and rejects anything else. -/
def intColParse? (v : PyVal) : Option Int :=
  match v with
  | PyVal.pint n => some n
  | PyVal.pstr s => s.toInt?
  | _ => none

/-- Modelled from the spec: the date column accepts only a string literal in
canonical date form. -/
def dateColParse? (v : PyVal) : Option Date :=
  match v with
  | PyVal.pstr s => Date.parse? s
  | _ => none

/-- A positional statement parameter as the handler passes it to the store:
either the body value unchanged, or its `json.dumps` serialization. -/
inductive SqlVal where
  | raw (v : PyVal)
  | dumped (v : PyVal)

/-- Modelled from the spec: a JSON column stores the serialized text and a
read yields the structured value back, so the net stored content of a
`dumped` parameter is the structure that was serialized; a `raw` parameter is
stored as supplied. -/
def SqlVal.stored : SqlVal → PyVal
  | SqlVal.raw v => v
  | SqlVal.dumped v => v

/-- One row of the PLANT_SAMPLE table. -/
structure Row where
  sample_id : Int
  date_of_sampling : Date
  plant_sample_detail : PyVal
  sampling_location : PyVal
  environmental_conditions : PyVal
  location_id : Int
  researcher_id : Int

/-- Modelled from the spec: the durable state of the store, the table rows
plus the next surrogate key the store will generate. -/
structure DB where
  rows : List Row
  nextId : Int

/-- Observable store-facing steps a handler performs, in order: acquiring the
session, opening the cursor, executing a statement with its parameters,
committing, and the two release steps. -/
inductive Event where
  | getConn
  | openCursor
  | execute (query : String) (params : List SqlVal)
  | commit
  | closeCursor
  | closeConn

/-- The JSON error envelope with its status code. -/
structure HttpResp where
  body : PyVal
  status : Nat

/-- Error response body, as built by `jsonify` in every error branch. -/
def mkErr (msg : String) (status : Nat) : HttpResp :=
  ⟨PyVal.pdict [("error", PyVal.pstr msg)], status⟩

/-- Per-item JSON shape a fetched row is mapped to by `get_sample` and
`get_all_samples`. -/
def rowJson (r : Row) : PyVal :=
  PyVal.pdict [
    ("sample_id", PyVal.pint r.sample_id),
    ("date_of_sampling", PyVal.pstr r.date_of_sampling.render),
    ("plant_sample_detail", r.plant_sample_detail),
    ("sampling_location", r.sampling_location),
    ("environmental_conditions", r.environmental_conditions),
    ("location_id", PyVal.pint r.location_id),
    ("researcher_id", PyVal.pint r.researcher_id)]

/-- The six required creation keys, in the order the source lists them. -/
def requiredKeys : List String :=
  ["date_of_sampling", "plant_sample_detail", "sampling_location",
   "environmental_conditions", "location_id", "researcher_id"]

/-- Semantics of `all(k in data for k in requiredKeys)`: short-circuits on the
first absent key, propagates a TypeError raised by the membership test. -/
def allIn : List String → Option PyVal → Except String Bool
  | [], _ => Except.ok true
  | k :: ks, body => do
      let h ← pyIn k body
      if h then allIn ks body else Except.ok false

/-- The insert statement text of `add_sample`. -/
def insertQuery : String :=
  "INSERT INTO PLANT_SAMPLE (date_of_sampling, plant_sample_detail, sampling_location, environmental_conditions, location_id, researcher_id) VALUES (%s, %s, %s, %s, %s, %s) RETURNING sample_id"

/-- Modelled from the spec: executing the insert parses the date and the two
integer parameters, appends one row holding the stored content of each
parameter, and returns the store-generated id together with the new durable
state; a malformed parameter fails the statement and changes nothing. -/
def execInsert (db : DB) (ps : List SqlVal) : Except String (DB × Int) :=
  match ps with
  | [dv, det, sl, env, lv, rv] =>
      match dateColParse? dv.stored, intColParse? lv.stored, intColParse? rv.stored with
      | some d, some ln, some rn =>
          Except.ok
            ({ rows := db.rows ++ [⟨db.nextId, d, det.stored, sl.stored, env.stored, ln, rn⟩],
               nextId := db.nextId + 1 },
             db.nextId)
      | none, _, _ => Except.error "invalid input syntax for type date"
      | _, _, _ => Except.error "invalid input syntax for type integer"
  | _ => Except.error "bad parameter count"

/-- Embedding of `add_sample` (src/api/index.py): validates the six required
keys, acquires a session, executes the insert with the three structured
fields serialized, commits, releases, and answers with the generated id; the
blanket handler turns any raised error into a 500 envelope. The result is
the response, the durable store state, and the trace of store-facing steps. -/
def add_sample (connOk : Bool) (db : DB) (body : Option PyVal) :
    HttpResp × DB × List Event :=
  match allIn requiredKeys body with
  | Except.error e => (mkErr e 500, db, [])
  | Except.ok false => (mkErr "Missing required fields" 400, db, [])
  | Except.ok true =>
      if connOk then
        match (do
          let dv ← pyGetItem body "date_of_sampling"
          let det ← pyGetItem body "plant_sample_detail"
          let sl ← pyGetItem body "sampling_location"
          let env ← pyGetItem body "environmental_conditions"
          let lv ← pyGetItem body "location_id"
          let rv ← pyGetItem body "researcher_id"
          Except.ok [SqlVal.raw dv, SqlVal.dumped det, SqlVal.dumped sl,
                     SqlVal.dumped env, SqlVal.raw lv, SqlVal.raw rv] :
          Except String (List SqlVal)) with
        | Except.error e => (mkErr e 500, db, [Event.getConn, Event.openCursor])
        | Except.ok ps =>
            match execInsert db ps with
            | Except.error e =>
                (mkErr e 500, db,
                 [Event.getConn, Event.openCursor, Event.execute insertQuery ps])
            | Except.ok (db2, sid) =>
                (⟨PyVal.pdict [("success", PyVal.pbool true),
                               ("sample_id", PyVal.pint sid),
                               ("message", PyVal.pstr "Sample added successfully")], 200⟩,
                 db2,
                 [Event.getConn, Event.openCursor, Event.execute insertQuery ps,
                  Event.commit, Event.closeCursor, Event.closeConn])
      else (mkErr "Database connection failed" 500, db, [])

/-- Embedding of `get_sample` (src/api/index.py): primary-key lookup, 404 when
no row matches, otherwise the row mapped to its JSON shape. -/
def get_sample (connOk : Bool) (db : DB) (sid : Int) : HttpResp × DB × List Event :=
  if connOk then
    let t := [Event.getConn, Event.openCursor,
              Event.execute "SELECT * FROM PLANT_SAMPLE WHERE sample_id = %s"
                [SqlVal.raw (PyVal.pint sid)],
              Event.closeCursor, Event.closeConn]
    match db.rows.find? (fun r => r.sample_id == sid) with
    | none => (mkErr "Sample not found" 404, db, t)
    | some r =>
        (⟨PyVal.pdict [("success", PyVal.pbool true), ("data", rowJson r)], 200⟩, db, t)
  else (mkErr "Database connection failed" 500, db, [])

/-- Embedding of `get_all_samples` (src/api/index.py): unfiltered read of all
rows, each mapped to the per-item JSON shape. -/
def get_all_samples (connOk : Bool) (db : DB) : HttpResp × DB × List Event :=
  if connOk then
    (⟨PyVal.pdict [("success", PyVal.pbool true),
                   ("data", PyVal.plist (db.rows.map rowJson))], 200⟩,
     db,
     [Event.getConn, Event.openCursor, Event.execute "SELECT * FROM PLANT_SAMPLE" [],
      Event.closeCursor, Event.closeConn])
  else (mkErr "Database connection failed" 500, db, [])

/-- One of the six field-presence checks of `update_sample`: when the key is
in the body, contribute one assignment term and one positional parameter. -/
def updPiece (body : Option PyVal) (k term : String) (mk : PyVal → SqlVal) :
    Except String (List String × List SqlVal) := do
  let h ← pyIn k body
  if h then
    let v ← pyGetItem body k
    Except.ok ([term], [mk v])
  else Except.ok ([], [])

/-- The dynamic statement construction of `update_sample`: the six checks in
source order, structured fields serialized with `json.dumps`, the other
fields passed raw. -/
def buildUpd (body : Option PyVal) : Except String (List String × List SqlVal) := do
  let p1 ← updPiece body "date_of_sampling" "date_of_sampling = %s" SqlVal.raw
  let p2 ← updPiece body "plant_sample_detail" "plant_sample_detail = %s" SqlVal.dumped
  let p3 ← updPiece body "sampling_location" "sampling_location = %s" SqlVal.dumped
  let p4 ← updPiece body "environmental_conditions" "environmental_conditions = %s" SqlVal.dumped
  let p5 ← updPiece body "location_id" "location_id = %s" SqlVal.raw
  let p6 ← updPiece body "researcher_id" "researcher_id = %s" SqlVal.raw
  Except.ok (p1.1 ++ p2.1 ++ p3.1 ++ p4.1 ++ p5.1 ++ p6.1,
             p1.2 ++ p2.2 ++ p3.2 ++ p4.2 ++ p5.2 ++ p6.2)

/-- A typed column assignment, as the store validates the parameter of each
`column = %s` term of the update statement. -/
inductive Assign where
  | adate (d : Date)
  | adetail (v : PyVal)
  | aloc (v : PyVal)
  | aenv (v : PyVal)
  | alocid (n : Int)
  | aresid (n : Int)

/-- Modelled from the spec: parameter validation for one assignment term of an
update statement; a date or integer column rejects a malformed parameter. -/
def checkPair : String × SqlVal → Except String Assign
  | ("date_of_sampling = %s", v) =>
      match dateColParse? v.stored with
      | some d => Except.ok (Assign.adate d)
      | none => Except.error "invalid input syntax for type date"
  | ("plant_sample_detail = %s", v) => Except.ok (Assign.adetail v.stored)
  | ("sampling_location = %s", v) => Except.ok (Assign.aloc v.stored)
  | ("environmental_conditions = %s", v) => Except.ok (Assign.aenv v.stored)
  | ("location_id = %s", v) =>
      match intColParse? v.stored with
      | some n => Except.ok (Assign.alocid n)
      | none => Except.error "invalid input syntax for type integer"
  | ("researcher_id = %s", v) =>
      match intColParse? v.stored with
      | some n => Except.ok (Assign.aresid n)
      | none => Except.error "invalid input syntax for type integer"
  | (_, _) => Except.error "syntax error in update statement"

/-- Apply one validated assignment to a row. -/
def Assign.apply (r : Row) : Assign → Row
  | Assign.adate d => { r with date_of_sampling := d }
  | Assign.adetail v => { r with plant_sample_detail := v }
  | Assign.aloc v => { r with sampling_location := v }
  | Assign.aenv v => { r with environmental_conditions := v }
  | Assign.alocid n => { r with location_id := n }
  | Assign.aresid n => { r with researcher_id := n }

/-- Modelled from the spec: executing the update statement validates every
assignment parameter once, then applies the assignments to each row whose id
matches the final positional parameter; zero matching rows is still a
successful execution. -/
def execUpdate (db : DB) (fields : List String) (vals : List SqlVal) (sid : Int) :
    Except String DB := do
  let asg ← (fields.zip vals).mapM checkPair
  Except.ok { db with rows := db.rows.map (fun r =>
    if r.sample_id == sid then asg.foldl Assign.apply r else r) }

/-- The update statement text for a given assignment-term list. -/
def updateQuery (fields : List String) : String :=
  "UPDATE PLANT_SAMPLE SET " ++ String.intercalate ", " fields ++ " WHERE sample_id = %s"

/-- Embedding of `update_sample` (src/api/index.py): acquires the session
first, builds the statement from the present keys, rejects an empty field
list with a 400 without releasing the session, otherwise appends the id as
the final positional parameter, executes, commits and releases. -/
def update_sample (connOk : Bool) (db : DB) (sid : Int) (body : Option PyVal) :
    HttpResp × DB × List Event :=
  if connOk then
    match buildUpd body with
    | Except.error e => (mkErr e 500, db, [Event.getConn, Event.openCursor])
    | Except.ok (fields, vals) =>
        if fields.isEmpty then
          (mkErr "No fields to update" 400, db, [Event.getConn, Event.openCursor])
        else
          let allVals := vals ++ [SqlVal.raw (PyVal.pint sid)]
          match execUpdate db fields allVals sid with
          | Except.error e =>
              (mkErr e 500, db,
               [Event.getConn, Event.openCursor, Event.execute (updateQuery fields) allVals])
          | Except.ok db2 =>
              (⟨PyVal.pdict [("success", PyVal.pbool true),
                             ("message", PyVal.pstr "Sample updated successfully")], 200⟩,
               db2,
               [Event.getConn, Event.openCursor, Event.execute (updateQuery fields) allVals,
                Event.commit, Event.closeCursor, Event.closeConn])
  else (mkErr "Database connection failed" 500, db, [])

/-- The delete statement text of `delete_sample`. -/
def deleteQuery : String := "DELETE FROM PLANT_SAMPLE WHERE sample_id = %s"

/-- Embedding of `delete_sample` (src/api/index.py): executes the delete,
answers 404 without committing when the affected-row count is zero, and
otherwise commits the removal; both branches release the session. -/
def delete_sample (connOk : Bool) (db : DB) (sid : Int) : HttpResp × DB × List Event :=
  if connOk then
    let matched := (db.rows.filter (fun r => r.sample_id == sid)).length
    if matched = 0 then
      (mkErr "Sample not found" 404, db,
       [Event.getConn, Event.openCursor,
        Event.execute deleteQuery [SqlVal.raw (PyVal.pint sid)],
        Event.closeCursor, Event.closeConn])
    else
      (⟨PyVal.pdict [("success", PyVal.pbool true),
                     ("message", PyVal.pstr "Sample deleted successfully")], 200⟩,
       { db with rows := db.rows.filter (fun r => !(r.sample_id == sid)) },
       [Event.getConn, Event.openCursor,
        Event.execute deleteQuery [SqlVal.raw (PyVal.pint sid)],
        Event.commit, Event.closeCursor, Event.closeConn])
  else (mkErr "Database connection failed" 500, db, [])

/-- The canonical positional parameter for an updatable column: the three
structured fields are serialized, the others passed raw. -/
def mkUpdVal (k : String) (v : PyVal) : SqlVal :=
  if k = "plant_sample_detail" ∨ k = "sampling_location" ∨ k = "environmental_conditions" then
    SqlVal.dumped v
  else SqlVal.raw v

/-- The recognized keys an object body supplies, in the fixed source order. -/
def presentKeys (kvs : List (String × PyVal)) : List String :=
  requiredKeys.filter (fun k => dictHas kvs k)

/-- The assignment terms of the update statement an object body gives rise
to, one per present key, in the fixed source order. -/
def updTerms (kvs : List (String × PyVal)) : List String :=
  (presentKeys kvs).map (fun k => k ++ " = %s")

/-- The positional parameters of the update statement an object body gives
rise to, aligned with `updTerms`. -/
def updVals (kvs : List (String × PyVal)) : List SqlVal :=
  (presentKeys kvs).map (fun k => mkUpdVal k (dictGetD kvs k))

/-- The six positional parameters of the insert statement built from a valid
object body, in source order, the three structured fields serialized. -/
def insertParams (kvs : List (String × PyVal)) : List SqlVal :=
  [SqlVal.raw (dictGetD kvs "date_of_sampling"),
   SqlVal.dumped (dictGetD kvs "plant_sample_detail"),
   SqlVal.dumped (dictGetD kvs "sampling_location"),
   SqlVal.dumped (dictGetD kvs "environmental_conditions"),
   SqlVal.raw (dictGetD kvs "location_id"),
   SqlVal.raw (dictGetD kvs "researcher_id")]

/-- Bodies on which the Python membership test raises a TypeError: an absent
body (None) and the non-iterable JSON scalars. -/
def nonIterableBody : Option PyVal → Bool
  | none => true
  | some PyVal.pnone => true
  | some (PyVal.pint _) => true
  | some (PyVal.pbool _) => true
  | _ => false

/-- A concrete stored row used by the closed witness statements. -/
def rowA : Row :=
  ⟨1, ⟨2024, 1, 1⟩, PyVal.pnone, PyVal.pnone, PyVal.pnone, 5, 7⟩

theorem allIn_dict (kvs : List (String × PyVal)) (ks : List String) :
    allIn ks (some (PyVal.pdict kvs)) = Except.ok (ks.all (fun k => dictHas kvs k)) := by
  induction ks with
  | nil => rfl
  | cons k ks ih =>
      cases h : dictHas kvs k <;>
        simp [allIn, pyIn, h, ih, Bind.bind, Except.bind]

theorem pyGetItem_dict (kvs : List (String × PyVal)) (k : String)
    (h : dictHas kvs k = true) :
    pyGetItem (some (PyVal.pdict kvs)) k = Except.ok (dictGetD kvs k) := by
  unfold pyGetItem dictGetD
  cases hg : dictGet? kvs k with
  | none => simp [dictHas, hg] at h
  | some v => simp [hg]

theorem updPiece_dict (kvs : List (String × PyVal)) (k term : String)
    (mk : PyVal → SqlVal) :
    updPiece (some (PyVal.pdict kvs)) k term mk =
      Except.ok (if dictHas kvs k then ([term], [mk (dictGetD kvs k)]) else ([], [])) := by
  unfold updPiece pyIn
  cases hg : dictGet? kvs k with
  | none => simp [dictHas, hg, Bind.bind, Except.bind]
  | some v => simp [dictHas, hg, Bind.bind, Except.bind, pyGetItem, dictGetD]

theorem buildUpd_dict (kvs : List (String × PyVal)) :
    buildUpd (some (PyVal.pdict kvs)) =
      Except.ok
        ((requiredKeys.filter (fun k => dictHas kvs k)).map (fun k => k ++ " = %s"),
         (requiredKeys.filter (fun k => dictHas kvs k)).map
           (fun k => mkUpdVal k (dictGetD kvs k))) := by
  simp only [buildUpd, updPiece_dict, Bind.bind, Except.bind, requiredKeys]
  cases h1 : dictHas kvs "date_of_sampling" <;>
  cases h2 : dictHas kvs "plant_sample_detail" <;>
  cases h3 : dictHas kvs "sampling_location" <;>
  cases h4 : dictHas kvs "environmental_conditions" <;>
  cases h5 : dictHas kvs "location_id" <;>
  cases h6 : dictHas kvs "researcher_id" <;>
  simp [h1, h2, h3, h4, h5, h6, mkUpdVal]

/-- C2: an update whose body is an object with none of the six recognized keys
fails with the 400 client error "No fields to update", the store state is
unchanged, and the trace holds no execute step, so no statement is sent and
zero writes are performed. -/
theorem update_no_recognized_fields (db : DB) (sid : Int)
    (kvs : List (String × PyVal))
    (h : ∀ k ∈ requiredKeys, dictHas kvs k = false) :
    update_sample true db sid (some (PyVal.pdict kvs)) =
      (mkErr "No fields to update" 400, db, [Event.getConn, Event.openCursor]) ∧
    ∀ q ps, Event.execute q ps ∉
      (update_sample true db sid (some (PyVal.pdict kvs))).2.2 := by
  have hf : requiredKeys.filter (fun k => dictHas kvs k) = [] := by
    rw [List.filter_eq_nil_iff]
    intro k hk
    simp [h k hk]
  constructor
  · simp [update_sample, buildUpd_dict, hf]
  · intro q ps
    simp [update_sample, buildUpd_dict, hf]

theorem update_no_recognized_fields_witness :
    update_sample true ⟨[], 1⟩ 5 (some (PyVal.pdict [("strain", PyVal.pstr "x")])) =
      (mkErr "No fields to update" 400, ⟨[], 1⟩, [Event.getConn, Event.openCursor]) ∧
    ∀ q ps, Event.execute q ps ∉
      (update_sample true ⟨[], 1⟩ 5 (some (PyVal.pdict [("strain", PyVal.pstr "x")]))).2.2 :=
  update_no_recognized_fields ⟨[], 1⟩ 5 [("strain", PyVal.pstr "x")] (by decide)

/-- C6: a create whose object body misses at least one of the six required
keys fails with the 400 client error "Missing required fields"; the store
state is unchanged, the trace is empty (the store is never touched), and the
error envelope carries no id. -/
theorem create_missing_required_field (connOk : Bool) (db : DB)
    (kvs : List (String × PyVal)) (k : String)
    (hk : k ∈ requiredKeys) (hmiss : dictHas kvs k = false) :
    add_sample connOk db (some (PyVal.pdict kvs)) =
      (mkErr "Missing required fields" 400, db, []) := by
  have hall : requiredKeys.all (fun k => dictHas kvs k) = false := by
    cases hcase : requiredKeys.all (fun k => dictHas kvs k) with
    | false => rfl
    | true =>
        have := List.all_eq_true.mp hcase k hk
        rw [hmiss] at this
        exact absurd this (by simp)
  simp [add_sample, allIn_dict, hall]

theorem create_missing_required_field_witness :
    add_sample true ⟨[], 1⟩
        (some (PyVal.pdict [("date_of_sampling", PyVal.pstr "2024-01-01")])) =
      (mkErr "Missing required fields" 400, ⟨[], 1⟩, []) :=
  create_missing_required_field true ⟨[], 1⟩
    [("date_of_sampling", PyVal.pstr "2024-01-01")]
    "plant_sample_detail" (by decide) (by decide)

/-- C3: evidence against the claim that every operation releases its session
on every exit path. On the no-fields client-error path of the update
operation the session has been acquired but no release step appears in the
trace, while the operation has returned its 400 response. -/
theorem update_leaks_session_on_no_fields :
    Event.getConn ∈ (update_sample true ⟨[], 1⟩ 1 (some (PyVal.pdict []))).2.2 ∧
    Event.closeConn ∉ (update_sample true ⟨[], 1⟩ 1 (some (PyVal.pdict []))).2.2 ∧
    (update_sample true ⟨[], 1⟩ 1 (some (PyVal.pdict []))).1.status = 400 := by
  have h : (update_sample true ⟨[], 1⟩ 1 (some (PyVal.pdict []))).2.2 =
      [Event.getConn, Event.openCursor] := rfl
  refine ⟨?_, ?_, rfl⟩ <;> rw [h] <;> simp

/-- C4, counterexample: an update request that fails validation (an object
body with none of the six recognized keys) reaches its client error only
after a session has been acquired, refuting the claim that no session is
acquired before the validation check. -/
theorem update_validation_acquires_session :
    (update_sample true ⟨[], 1⟩ 1 (some (PyVal.pdict [("x", PyVal.pint 0)]))).1.status = 400 ∧
    Event.getConn ∈
      (update_sample true ⟨[], 1⟩ 1 (some (PyVal.pdict [("x", PyVal.pint 0)]))).2.2 := by
  have h : (update_sample true ⟨[], 1⟩ 1 (some (PyVal.pdict [("x", PyVal.pint 0)]))).2.2 =
      [Event.getConn, Event.openCursor] := rfl
  exact ⟨rfl, by rw [h]; simp⟩

/-- C4, amended: a create that fails validation reports the client error with
no session acquired and no statement executed; an update that fails
validation reports the client error with no statement executed, though a
session has already been acquired at entry. -/
theorem validation_failure_no_statement :
    (∀ (connOk : Bool) (db : DB) (kvs : List (String × PyVal)) (k : String),
        k ∈ requiredKeys → dictHas kvs k = false →
        add_sample connOk db (some (PyVal.pdict kvs)) =
          (mkErr "Missing required fields" 400, db, [])) ∧
    (∀ (db : DB) (sid : Int) (kvs : List (String × PyVal)),
        (∀ k ∈ requiredKeys, dictHas kvs k = false) →
        update_sample true db sid (some (PyVal.pdict kvs)) =
          (mkErr "No fields to update" 400, db, [Event.getConn, Event.openCursor])) := by
  constructor
  · intro connOk db kvs k hk hmiss
    have hall : requiredKeys.all (fun k => dictHas kvs k) = false := by
      cases hcase : requiredKeys.all (fun k => dictHas kvs k) with
      | false => rfl
      | true =>
          have := List.all_eq_true.mp hcase k hk
          rw [hmiss] at this
          exact absurd this (by simp)
    simp [add_sample, allIn_dict, hall]
  · intro db sid kvs h
    have hf : requiredKeys.filter (fun k => dictHas kvs k) = [] := by
      rw [List.filter_eq_nil_iff]
      intro k hk
      simp [h k hk]
    simp [update_sample, buildUpd_dict, hf]

theorem validation_failure_no_statement_witness :
    add_sample true ⟨[], 1⟩ (some (PyVal.pdict [])) =
      (mkErr "Missing required fields" 400, ⟨[], 1⟩, []) ∧
    update_sample true ⟨[], 1⟩ 7 (some (PyVal.pdict [])) =
      (mkErr "No fields to update" 400, ⟨[], 1⟩, [Event.getConn, Event.openCursor]) :=
  ⟨validation_failure_no_statement.1 true ⟨[], 1⟩ [] "date_of_sampling" (by decide) (by decide),
   validation_failure_no_statement.2 ⟨[], 1⟩ 7 [] (by decide)⟩

/-- C1, counterexample: an update whose body contains a recognized key can
still fail with a 500 server error when the statement fails at the store (a
malformed date parameter), so the operation does not return the success
envelope for every such request. -/
theorem update_claimed_success_fails_on_store_error :
    (update_sample true ⟨[], 1⟩ 1
        (some (PyVal.pdict [("date_of_sampling", PyVal.pstr "not-a-date")]))).1 =
      mkErr "invalid input syntax for type date" 500 ∧
    (update_sample true ⟨[], 1⟩ 1
        (some (PyVal.pdict [("date_of_sampling", PyVal.pstr "not-a-date")]))).1.status ≠ 200 :=
  ⟨rfl, by decide⟩

/-- C1, amended: an update whose body contains at least one recognized key
and whose statement executes without store error returns the success
envelope for every store state, so independently of whether any row matched
the id; and the update operation never returns a 404 not-found response on
any input. -/
theorem update_success_independent_of_match (db : DB) (sid : Int)
    (kvs : List (String × PyVal)) (fields : List String) (vals : List SqlVal) (db2 : DB)
    (hb : buildUpd (some (PyVal.pdict kvs)) = Except.ok (fields, vals))
    (hne : fields ≠ [])
    (hex : execUpdate db fields (vals ++ [SqlVal.raw (PyVal.pint sid)]) sid = Except.ok db2) :
    (update_sample true db sid (some (PyVal.pdict kvs))).1 =
      ⟨PyVal.pdict [("success", PyVal.pbool true),
                    ("message", PyVal.pstr "Sample updated successfully")], 200⟩ ∧
    ∀ (c : Bool) (db' : DB) (i : Int) (b : Option PyVal),
      (update_sample c db' i b).1.status ≠ 404 := by
  constructor
  · cases fields with
    | nil => exact absurd rfl hne
    | cons f fs => simp [update_sample, hb, hex]
  · intro c db' i b
    cases c with
    | false => simp [update_sample, mkErr]
    | true =>
        cases hb' : buildUpd b with
        | error e => simp [update_sample, hb', mkErr]
        | ok p =>
            obtain ⟨fs, vs⟩ := p
            by_cases hf : fs.isEmpty
            · simp [update_sample, hb', hf, mkErr]
            · cases hu : execUpdate db' fs (vs ++ [SqlVal.raw (PyVal.pint i)]) i with
              | error e => simp [update_sample, hb', hf, hu, mkErr]
              | ok db3 => simp [update_sample, hb', hf, hu]

theorem update_success_independent_of_match_witness :
    (update_sample true ⟨[], 1⟩ 1 (some (PyVal.pdict [("location_id", PyVal.pint 9)]))).1 =
      ⟨PyVal.pdict [("success", PyVal.pbool true),
                    ("message", PyVal.pstr "Sample updated successfully")], 200⟩ ∧
    ∀ (c : Bool) (db' : DB) (i : Int) (b : Option PyVal),
      (update_sample c db' i b).1.status ≠ 404 :=
  update_success_independent_of_match ⟨[], 1⟩ 1 [("location_id", PyVal.pint 9)]
    ["location_id = %s"] [SqlVal.raw (PyVal.pint 9)] ⟨[], 1⟩ rfl (by simp) rfl

theorem buildUpd_dict_terms (kvs : List (String × PyVal)) :
    buildUpd (some (PyVal.pdict kvs)) = Except.ok (updTerms kvs, updVals kvs) := by
  simpa [updTerms, updVals, presentKeys] using buildUpd_dict kvs

theorem getLast?_append_singleton {α : Type} (l : List α) (a : α) :
    (l ++ [a]).getLast? = some a := by
  simp

/-- C5: for an object body supplying a nonempty subset S of the six
recognized keys, the built statement names exactly the columns of the keys
in S in the fixed canonical order, each present key contributes exactly one
assignment term and one positional parameter (structured fields
serialized), the two lists have equal length and stay aligned, the terms
are pairwise distinct, the executed statement uses those terms and
parameters, and the id is the final positional parameter of the WHERE
clause; keys outside S contribute nothing. -/
theorem update_statement_exact_columns (db : DB) (sid : Int)
    (kvs : List (String × PyVal)) (hne : presentKeys kvs ≠ []) :
    buildUpd (some (PyVal.pdict kvs)) = Except.ok (updTerms kvs, updVals kvs) ∧
    updTerms kvs = (presentKeys kvs).map (fun k => k ++ " = %s") ∧
    updVals kvs = (presentKeys kvs).map (fun k => mkUpdVal k (dictGetD kvs k)) ∧
    (updTerms kvs).length = (updVals kvs).length ∧
    (updTerms kvs).Nodup ∧
    (∃ rest,
      (update_sample true db sid (some (PyVal.pdict kvs))).2.2 =
        Event.getConn :: Event.openCursor ::
          Event.execute (updateQuery (updTerms kvs))
            (updVals kvs ++ [SqlVal.raw (PyVal.pint sid)]) :: rest) ∧
    (updVals kvs ++ [SqlVal.raw (PyVal.pint sid)]).getLast? =
      some (SqlVal.raw (PyVal.pint sid)) := by
  have hterms : (updTerms kvs).Nodup := by
    have hsub : List.Sublist (updTerms kvs) (requiredKeys.map (fun k => k ++ " = %s")) :=
      (List.filter_sublist requiredKeys).map (fun k => k ++ " = %s")
    exact (by decide : (requiredKeys.map (fun k => k ++ " = %s")).Nodup).sublist hsub
  have hlen : (updTerms kvs).length = (updVals kvs).length := by
    simp [updTerms, updVals]
  have htne : ¬ (updTerms kvs).isEmpty = true := by
    cases hcase : presentKeys kvs with
    | nil => exact absurd hcase hne
    | cons x xs => simp [updTerms, hcase]
  refine ⟨buildUpd_dict_terms kvs, rfl, rfl, hlen, hterms, ?_,
    getLast?_append_singleton _ _⟩
  cases hu : execUpdate db (updTerms kvs)
      (updVals kvs ++ [SqlVal.raw (PyVal.pint sid)]) sid with
  | error e =>
      exact ⟨[], by simp [update_sample, buildUpd_dict_terms, htne, hu]⟩
  | ok db2 =>
      exact ⟨[Event.commit, Event.closeCursor, Event.closeConn],
        by simp [update_sample, buildUpd_dict_terms, htne, hu]⟩

theorem update_statement_exact_columns_witness :
    buildUpd (some (PyVal.pdict [("researcher_id", PyVal.pint 3)])) =
      Except.ok (updTerms [("researcher_id", PyVal.pint 3)],
                 updVals [("researcher_id", PyVal.pint 3)]) ∧
    updTerms [("researcher_id", PyVal.pint 3)] =
      (presentKeys [("researcher_id", PyVal.pint 3)]).map (fun k => k ++ " = %s") ∧
    updVals [("researcher_id", PyVal.pint 3)] =
      (presentKeys [("researcher_id", PyVal.pint 3)]).map
        (fun k => mkUpdVal k (dictGetD [("researcher_id", PyVal.pint 3)] k)) ∧
    (updTerms [("researcher_id", PyVal.pint 3)]).length =
      (updVals [("researcher_id", PyVal.pint 3)]).length ∧
    (updTerms [("researcher_id", PyVal.pint 3)]).Nodup ∧
    (∃ rest,
      (update_sample true ⟨[], 1⟩ 4
          (some (PyVal.pdict [("researcher_id", PyVal.pint 3)]))).2.2 =
        Event.getConn :: Event.openCursor ::
          Event.execute (updateQuery (updTerms [("researcher_id", PyVal.pint 3)]))
            (updVals [("researcher_id", PyVal.pint 3)] ++ [SqlVal.raw (PyVal.pint 4)]) :: rest) ∧
    (updVals [("researcher_id", PyVal.pint 3)] ++ [SqlVal.raw (PyVal.pint 4)]).getLast? =
      some (SqlVal.raw (PyVal.pint 4)) :=
  update_statement_exact_columns ⟨[], 1⟩ 4 [("researcher_id", PyVal.pint 3)] (by decide)

/-- C7: a delete whose id matches no stored row answers the 404 not-found
client error, commits nothing, and leaves the store unchanged; a delete
whose id matches a row commits the removal and answers the success
envelope. -/
theorem delete_not_found_no_commit (db : DB) (sid : Int) :
    ((db.rows.filter (fun r => r.sample_id == sid)).length = 0 →
      delete_sample true db sid =
        (mkErr "Sample not found" 404, db,
         [Event.getConn, Event.openCursor,
          Event.execute deleteQuery [SqlVal.raw (PyVal.pint sid)],
          Event.closeCursor, Event.closeConn]) ∧
      Event.commit ∉ (delete_sample true db sid).2.2) ∧
    ((db.rows.filter (fun r => r.sample_id == sid)).length ≠ 0 →
      delete_sample true db sid =
        (⟨PyVal.pdict [("success", PyVal.pbool true),
                       ("message", PyVal.pstr "Sample deleted successfully")], 200⟩,
         { db with rows := db.rows.filter (fun r => !(r.sample_id == sid)) },
         [Event.getConn, Event.openCursor,
          Event.execute deleteQuery [SqlVal.raw (PyVal.pint sid)],
          Event.commit, Event.closeCursor, Event.closeConn])) := by
  constructor
  · intro h
    have hd : delete_sample true db sid =
        (mkErr "Sample not found" 404, db,
         [Event.getConn, Event.openCursor,
          Event.execute deleteQuery [SqlVal.raw (PyVal.pint sid)],
          Event.closeCursor, Event.closeConn]) := by
      simp [delete_sample, h]
    refine ⟨hd, ?_⟩
    rw [hd]
    simp
  · intro h
    simp [delete_sample, h]

theorem delete_not_found_no_commit_witness :
    (delete_sample true ⟨[rowA], 2⟩ 5 =
        (mkErr "Sample not found" 404, ⟨[rowA], 2⟩,
         [Event.getConn, Event.openCursor,
          Event.execute deleteQuery [SqlVal.raw (PyVal.pint 5)],
          Event.closeCursor, Event.closeConn]) ∧
      Event.commit ∉ (delete_sample true ⟨[rowA], 2⟩ 5).2.2) ∧
    delete_sample true ⟨[rowA], 2⟩ 1 =
      (⟨PyVal.pdict [("success", PyVal.pbool true),
                     ("message", PyVal.pstr "Sample deleted successfully")], 200⟩,
       ⟨[], 2⟩,
       [Event.getConn, Event.openCursor,
        Event.execute deleteQuery [SqlVal.raw (PyVal.pint 1)],
        Event.commit, Event.closeCursor, Event.closeConn]) :=
  ⟨(delete_not_found_no_commit ⟨[rowA], 2⟩ 5).1 (by decide),
   (delete_not_found_no_commit ⟨[rowA], 2⟩ 1).2 (by decide)⟩

theorem add_sample_valid_split (db : DB) (kvs : List (String × PyVal))
    (hall : ∀ k ∈ requiredKeys, dictHas kvs k = true) :
    (∀ e, execInsert db (insertParams kvs) = Except.error e →
        add_sample true db (some (PyVal.pdict kvs)) =
          (mkErr e 500, db,
           [Event.getConn, Event.openCursor,
            Event.execute insertQuery (insertParams kvs)])) ∧
    (∀ db2 sid, execInsert db (insertParams kvs) = Except.ok (db2, sid) →
        add_sample true db (some (PyVal.pdict kvs)) =
          (⟨PyVal.pdict [("success", PyVal.pbool true),
                         ("sample_id", PyVal.pint sid),
                         ("message", PyVal.pstr "Sample added successfully")], 200⟩,
           db2,
           [Event.getConn, Event.openCursor,
            Event.execute insertQuery (insertParams kvs),
            Event.commit, Event.closeCursor, Event.closeConn])) := by
  have ha : allIn requiredKeys (some (PyVal.pdict kvs)) = Except.ok true := by
    rw [allIn_dict]
    congr 1
    exact List.all_eq_true.mpr hall
  have h1 := pyGetItem_dict kvs "date_of_sampling" (hall _ (by simp [requiredKeys]))
  have h2 := pyGetItem_dict kvs "plant_sample_detail" (hall _ (by simp [requiredKeys]))
  have h3 := pyGetItem_dict kvs "sampling_location" (hall _ (by simp [requiredKeys]))
  have h4 := pyGetItem_dict kvs "environmental_conditions" (hall _ (by simp [requiredKeys]))
  have h5 := pyGetItem_dict kvs "location_id" (hall _ (by simp [requiredKeys]))
  have h6 := pyGetItem_dict kvs "researcher_id" (hall _ (by simp [requiredKeys]))
  constructor
  · intro e he
    simp only [insertParams] at he
    simp [add_sample, ha, h1, h2, h3, h4, h5, h6, Bind.bind, Except.bind, he, insertParams]
  · intro db2 sid he
    simp only [insertParams] at he
    simp [add_sample, ha, h1, h2, h3, h4, h5, h6, Bind.bind, Except.bind, he, insertParams]

theorem execInsert_ok_shape (db : DB) (ps : List SqlVal) (db2 : DB) (sid : Int)
    (h : execInsert db ps = Except.ok (db2, sid)) :
    sid = db.nextId ∧ db2.nextId = db.nextId + 1 ∧
    ∃ r : Row, r.sample_id = db.nextId ∧ db2.rows = db.rows ++ [r] := by
  unfold execInsert at h
  split at h
  · split at h
    · rename_i dv det sl env lv rv d ln rn hd hl hr
      simp only [Except.ok.injEq, Prod.mk.injEq] at h
      obtain ⟨hdb, hsid⟩ := h
      subst hdb
      subst hsid
      exact ⟨rfl, rfl, ⟨_, rfl, rfl⟩⟩
    · exact absurd h (by simp)
    · exact absurd h (by simp)
  · exact absurd h (by simp)

/-- C8: for a create request supplying all six required keys, the insert and
the id retrieval are one atomic unit: when the insert statement fails the
response is the error envelope, nothing is committed and the store is
unchanged, so no row and no id are produced; when it succeeds, exactly one
new row is appended, the operation commits, and the success envelope
carries the store-generated id. The parameter list serializes the three
structured fields field-by-field. -/
theorem create_insert_atomic (db : DB) (kvs : List (String × PyVal))
    (hall : ∀ k ∈ requiredKeys, dictHas kvs k = true) :
    (∀ e, execInsert db (insertParams kvs) = Except.error e →
        add_sample true db (some (PyVal.pdict kvs)) =
          (mkErr e 500, db,
           [Event.getConn, Event.openCursor,
            Event.execute insertQuery (insertParams kvs)]) ∧
        Event.commit ∉ (add_sample true db (some (PyVal.pdict kvs))).2.2) ∧
    (∀ db2 sid, execInsert db (insertParams kvs) = Except.ok (db2, sid) →
        add_sample true db (some (PyVal.pdict kvs)) =
          (⟨PyVal.pdict [("success", PyVal.pbool true),
                         ("sample_id", PyVal.pint sid),
                         ("message", PyVal.pstr "Sample added successfully")], 200⟩,
           db2,
           [Event.getConn, Event.openCursor,
            Event.execute insertQuery (insertParams kvs),
            Event.commit, Event.closeCursor, Event.closeConn]) ∧
        sid = db.nextId ∧
        (∃ r : Row, r.sample_id = sid ∧ db2.rows = db.rows ++ [r])) := by
  obtain ⟨herr, hok⟩ := add_sample_valid_split db kvs hall
  constructor
  · intro e he
    have hd := herr e he
    refine ⟨hd, ?_⟩
    rw [hd]
    simp
  · intro db2 sid he
    obtain ⟨hsid, _, r, hr, hrows⟩ := execInsert_ok_shape db (insertParams kvs) db2 sid he
    subst hsid
    exact ⟨hok db2 db.nextId he, rfl, ⟨r, hr, hrows⟩⟩

theorem create_insert_atomic_witness :
    add_sample true ⟨[], 1⟩
        (some (PyVal.pdict
          [("date_of_sampling", PyVal.pstr "2024-01-01"),
           ("plant_sample_detail", PyVal.pdict [("type", PyVal.pstr "leaf")]),
           ("sampling_location", PyVal.pdict [("lat", PyVal.pint 1), ("lon", PyVal.pint 2)]),
           ("environmental_conditions", PyVal.pdict [("humidity", PyVal.pint 80)]),
           ("location_id", PyVal.pint 5),
           ("researcher_id", PyVal.pint 7)])) =
      (⟨PyVal.pdict [("success", PyVal.pbool true),
                     ("sample_id", PyVal.pint 1),
                     ("message", PyVal.pstr "Sample added successfully")], 200⟩,
       ⟨[⟨1, ⟨2024, 1, 1⟩, PyVal.pdict [("type", PyVal.pstr "leaf")],
          PyVal.pdict [("lat", PyVal.pint 1), ("lon", PyVal.pint 2)],
          PyVal.pdict [("humidity", PyVal.pint 80)], 5, 7⟩], 2⟩,
       [Event.getConn, Event.openCursor,
        Event.execute insertQuery (insertParams
          [("date_of_sampling", PyVal.pstr "2024-01-01"),
           ("plant_sample_detail", PyVal.pdict [("type", PyVal.pstr "leaf")]),
           ("sampling_location", PyVal.pdict [("lat", PyVal.pint 1), ("lon", PyVal.pint 2)]),
           ("environmental_conditions", PyVal.pdict [("humidity", PyVal.pint 80)]),
           ("location_id", PyVal.pint 5),
           ("researcher_id", PyVal.pint 7)]),
        Event.commit, Event.closeCursor, Event.closeConn]) ∧
    (1 : Int) = (1 : Int) ∧
    (∃ r : Row, r.sample_id = 1 ∧
      (⟨1, ⟨2024, 1, 1⟩, PyVal.pdict [("type", PyVal.pstr "leaf")],
        PyVal.pdict [("lat", PyVal.pint 1), ("lon", PyVal.pint 2)],
        PyVal.pdict [("humidity", PyVal.pint 80)], 5, 7⟩ : Row) :: ([] : List Row) =
        [] ++ [r]) :=
  (create_insert_atomic ⟨[], 1⟩
      [("date_of_sampling", PyVal.pstr "2024-01-01"),
       ("plant_sample_detail", PyVal.pdict [("type", PyVal.pstr "leaf")]),
       ("sampling_location", PyVal.pdict [("lat", PyVal.pint 1), ("lon", PyVal.pint 2)]),
       ("environmental_conditions", PyVal.pdict [("humidity", PyVal.pint 80)]),
       ("location_id", PyVal.pint 5),
       ("researcher_id", PyVal.pint 7)] (by decide)).2
    ⟨[⟨1, ⟨2024, 1, 1⟩, PyVal.pdict [("type", PyVal.pstr "leaf")],
       PyVal.pdict [("lat", PyVal.pint 1), ("lon", PyVal.pint 2)],
       PyVal.pdict [("humidity", PyVal.pint 80)], 5, 7⟩], 2⟩ 1 rfl

theorem find?_append_of_none {α : Type} (p : α → Bool) (l1 l2 : List α)
    (h : ∀ x ∈ l1, p x = false) : (l1 ++ l2).find? p = l2.find? p := by
  induction l1 with
  | nil => rfl
  | cons x xs ih =>
      rw [List.cons_append, List.find?_cons_of_neg, ih (fun y hy => h y (by simp [hy]))]
      simp [h x (by simp)]

/-- C9: for a valid create payload, calling get with the id returned by the
create, on the store state the create produced, returns the six supplied
field values, with the date rendered in its canonical string form; the create
response itself carries the store-generated id. -/
theorem create_get_roundtrip (db : DB) (kvs : List (String × PyVal))
    (s : String) (d : Date) (det sl env : PyVal) (ln rn : Int)
    (hfresh : ∀ r ∈ db.rows, (r.sample_id == db.nextId) = false)
    (h1 : dictGet? kvs "date_of_sampling" = some (PyVal.pstr s))
    (hd : Date.parse? s = some d)
    (h2 : dictGet? kvs "plant_sample_detail" = some det)
    (h3 : dictGet? kvs "sampling_location" = some sl)
    (h4 : dictGet? kvs "environmental_conditions" = some env)
    (h5 : dictGet? kvs "location_id" = some (PyVal.pint ln))
    (h6 : dictGet? kvs "researcher_id" = some (PyVal.pint rn)) :
    (add_sample true db (some (PyVal.pdict kvs))).1 =
      ⟨PyVal.pdict [("success", PyVal.pbool true),
                    ("sample_id", PyVal.pint db.nextId),
                    ("message", PyVal.pstr "Sample added successfully")], 200⟩ ∧
    (get_sample true (add_sample true db (some (PyVal.pdict kvs))).2.1 db.nextId).1 =
      ⟨PyVal.pdict [("success", PyVal.pbool true),
         ("data", PyVal.pdict [
            ("sample_id", PyVal.pint db.nextId),
            ("date_of_sampling", PyVal.pstr d.render),
            ("plant_sample_detail", det),
            ("sampling_location", sl),
            ("environmental_conditions", env),
            ("location_id", PyVal.pint ln),
            ("researcher_id", PyVal.pint rn)])], 200⟩ := by
  have hall : ∀ k ∈ requiredKeys, dictHas kvs k = true := by
    intro k hk
    simp only [requiredKeys, List.mem_cons, List.not_mem_nil, or_false] at hk
    rcases hk with rfl | rfl | rfl | rfl | rfl | rfl <;>
      simp [dictHas, h1, h2, h3, h4, h5, h6]
  have he : execInsert db (insertParams kvs) =
      Except.ok ({ rows := db.rows ++ [⟨db.nextId, d, det, sl, env, ln, rn⟩],
                   nextId := db.nextId + 1 }, db.nextId) := by
    simp [execInsert, insertParams, dictGetD, h1, h2, h3, h4, h5, h6, SqlVal.stored,
      dateColParse?, intColParse?, hd]
  have hadd := (add_sample_valid_split db kvs hall).2 _ _ he
  refine ⟨by rw [hadd], ?_⟩
  rw [hadd]
  simp only [get_sample, if_true]
  rw [find?_append_of_none _ _ _ hfresh]
  simp [rowJson]

theorem create_get_roundtrip_witness :
    (add_sample true ⟨[], 1⟩
        (some (PyVal.pdict
          [("date_of_sampling", PyVal.pstr "2024-01-01"),
           ("plant_sample_detail", PyVal.pdict [("type", PyVal.pstr "leaf")]),
           ("sampling_location", PyVal.pdict [("lat", PyVal.pint 1), ("lon", PyVal.pint 2)]),
           ("environmental_conditions", PyVal.pdict [("humidity", PyVal.pint 80)]),
           ("location_id", PyVal.pint 5),
           ("researcher_id", PyVal.pint 7)]))).1 =
      ⟨PyVal.pdict [("success", PyVal.pbool true),
                    ("sample_id", PyVal.pint 1),
                    ("message", PyVal.pstr "Sample added successfully")], 200⟩ ∧
    (get_sample true
        (add_sample true ⟨[], 1⟩
          (some (PyVal.pdict
            [("date_of_sampling", PyVal.pstr "2024-01-01"),
             ("plant_sample_detail", PyVal.pdict [("type", PyVal.pstr "leaf")]),
             ("sampling_location", PyVal.pdict [("lat", PyVal.pint 1), ("lon", PyVal.pint 2)]),
             ("environmental_conditions", PyVal.pdict [("humidity", PyVal.pint 80)]),
             ("location_id", PyVal.pint 5),
             ("researcher_id", PyVal.pint 7)]))).2.1 1).1 =
      ⟨PyVal.pdict [("success", PyVal.pbool true),
         ("data", PyVal.pdict [
            ("sample_id", PyVal.pint 1),
            ("date_of_sampling", PyVal.pstr "2024-01-01"),
            ("plant_sample_detail", PyVal.pdict [("type", PyVal.pstr "leaf")]),
            ("sampling_location", PyVal.pdict [("lat", PyVal.pint 1), ("lon", PyVal.pint 2)]),
            ("environmental_conditions", PyVal.pdict [("humidity", PyVal.pint 80)]),
            ("location_id", PyVal.pint 5),
            ("researcher_id", PyVal.pint 7)])], 200⟩ :=
  create_get_roundtrip ⟨[], 1⟩
    [("date_of_sampling", PyVal.pstr "2024-01-01"),
     ("plant_sample_detail", PyVal.pdict [("type", PyVal.pstr "leaf")]),
     ("sampling_location", PyVal.pdict [("lat", PyVal.pint 1), ("lon", PyVal.pint 2)]),
     ("environmental_conditions", PyVal.pdict [("humidity", PyVal.pint 80)]),
     ("location_id", PyVal.pint 5),
     ("researcher_id", PyVal.pint 7)]
    "2024-01-01" ⟨2024, 1, 1⟩
    (PyVal.pdict [("type", PyVal.pstr "leaf")])
    (PyVal.pdict [("lat", PyVal.pint 1), ("lon", PyVal.pint 2)])
    (PyVal.pdict [("humidity", PyVal.pint 80)]) 5 7
    (by simp) rfl (by decide) rfl rfl rfl rfl rfl

/-- C10, counterexample: a create request whose JSON body is not an object
can still avoid the 500 server error: an array body makes every
key-membership test answer false without raising, so the operation returns
the 400 validation error instead of a 500 error envelope. -/
theorem non_object_body_not_always_500 :
    (add_sample true ⟨[], 1⟩ (some (PyVal.plist []))).1 =
      mkErr "Missing required fields" 400 ∧
    (add_sample true ⟨[], 1⟩ (some (PyVal.plist []))).1.status ≠ 500 :=
  ⟨rfl, by decide⟩

/-- C10, amended: for a create or update request whose JSON body is absent or
a non-iterable value (null, a number, or a boolean), the key-membership test
raises and the blanket handler answers a 500-class error envelope, not a
400-class validation error; for the update operation a session has already
been acquired before this failure. -/
theorem non_iterable_body_500 (db : DB) (sid : Int) (body : Option PyVal)
    (h : nonIterableBody body = true) :
    (∃ e, add_sample true db body = (mkErr e 500, db, [])) ∧
    (∃ e, update_sample true db sid body =
        (mkErr e 500, db, [Event.getConn, Event.openCursor])) ∧
    Event.getConn ∈ (update_sample true db sid body).2.2 ∧
    (add_sample true db body).1.status = 500 ∧
    (update_sample true db sid body).1.status = 500 := by
  match body, h with
  | none, _ =>
      refine ⟨⟨_, rfl⟩, ⟨_, rfl⟩, ?_, rfl, rfl⟩
      have ht : (update_sample true db sid none).2.2 =
          [Event.getConn, Event.openCursor] := rfl
      rw [ht]
      simp
  | some PyVal.pnone, _ =>
      refine ⟨⟨_, rfl⟩, ⟨_, rfl⟩, ?_, rfl, rfl⟩
      have ht : (update_sample true db sid (some PyVal.pnone)).2.2 =
          [Event.getConn, Event.openCursor] := rfl
      rw [ht]
      simp
  | some (PyVal.pint n), _ =>
      refine ⟨⟨_, rfl⟩, ⟨_, rfl⟩, ?_, rfl, rfl⟩
      have ht : (update_sample true db sid (some (PyVal.pint n))).2.2 =
          [Event.getConn, Event.openCursor] := rfl
      rw [ht]
      simp
  | some (PyVal.pbool b), _ =>
      refine ⟨⟨_, rfl⟩, ⟨_, rfl⟩, ?_, rfl, rfl⟩
      have ht : (update_sample true db sid (some (PyVal.pbool b))).2.2 =
          [Event.getConn, Event.openCursor] := rfl
      rw [ht]
      simp

theorem non_iterable_body_500_witness :
    (∃ e, add_sample true ⟨[], 1⟩ (some (PyVal.pint 3)) = (mkErr e 500, ⟨[], 1⟩, [])) ∧
    (∃ e, update_sample true ⟨[], 1⟩ 2 (some (PyVal.pint 3)) =
        (mkErr e 500, ⟨[], 1⟩, [Event.getConn, Event.openCursor])) ∧
    Event.getConn ∈ (update_sample true ⟨[], 1⟩ 2 (some (PyVal.pint 3))).2.2 ∧
    (add_sample true ⟨[], 1⟩ (some (PyVal.pint 3))).1.status = 500 ∧
    (update_sample true ⟨[], 1⟩ 2 (some (PyVal.pint 3))).1.status = 500 :=
  non_iterable_body_500 ⟨[], 1⟩ 2 (some (PyVal.pint 3)) rfl

end PlantSamplingApp
